import Mathlib

/-!
Verification development for the Simbody multibody dynamics core
(src/src/RigidBodyNode.cpp and src/Simbody/src/Force_Gravity.cpp).

C++ `Real` (double) is modelled as the mathematical reals `ℝ`.  The small
fixed-size linear algebra layer (Vec3, Vec4, Mat33, SpatialVec, SpatialMat,
PhiMatrix) mirrors the SimTK primitives that the code under analysis uses;
rotation constructors (`setRotationFromAngleAboutZ`, `setRotationToBodyFixedXYZ`,
`setRotationFromQuaternion`) are external library primitives of the repository
and are modelled from their standard mathematical definitions.
-/

set_option linter.unusedVariables false
set_option linter.unreachableTactic false
set_option linter.unusedTactic false

noncomputable section

/-- 3-vector of reals, modelling SimTK `Vec3`. -/
@[ext]
structure Vec3 where
  x : ℝ
  y : ℝ
  z : ℝ

namespace Vec3

def zero : Vec3 := ⟨0, 0, 0⟩

def add (a b : Vec3) : Vec3 := ⟨a.x + b.x, a.y + b.y, a.z + b.z⟩

def sub (a b : Vec3) : Vec3 := ⟨a.x - b.x, a.y - b.y, a.z - b.z⟩

def smul (c : ℝ) (a : Vec3) : Vec3 := ⟨c * a.x, c * a.y, c * a.z⟩

/-- Cross product `a % b` of SimTK. -/
def cross (a b : Vec3) : Vec3 :=
  ⟨a.y * b.z - a.z * b.y, a.z * b.x - a.x * b.z, a.x * b.y - a.y * b.x⟩

/-- Dot product. -/
def dot (a b : Vec3) : ℝ := a.x * b.x + a.y * b.y + a.z * b.z

/-- Euclidean norm, modelling `Vec3::norm()`. -/
def norm (a : Vec3) : ℝ := Real.sqrt (dot a a)

end Vec3

/-- 4-vector of reals, modelling SimTK `Vec4` (quaternion storage). -/
@[ext]
structure Vec4 where
  e0 : ℝ
  e1 : ℝ
  e2 : ℝ
  e3 : ℝ

namespace Vec4

def zero : Vec4 := ⟨0, 0, 0, 0⟩

def sub (a b : Vec4) : Vec4 := ⟨a.e0 - b.e0, a.e1 - b.e1, a.e2 - b.e2, a.e3 - b.e3⟩

def smul (c : ℝ) (a : Vec4) : Vec4 := ⟨c * a.e0, c * a.e1, c * a.e2, c * a.e3⟩

def dot (a b : Vec4) : ℝ := a.e0 * b.e0 + a.e1 * b.e1 + a.e2 * b.e2 + a.e3 * b.e3

/-- Euclidean norm, modelling `Vec4::norm()`. -/
def norm (a : Vec4) : ℝ := Real.sqrt (dot a a)

/-- Componentwise division by a scalar, modelling `quat / quat.norm()`. -/
def divR (a : Vec4) (c : ℝ) : Vec4 := ⟨a.e0 / c, a.e1 / c, a.e2 / c, a.e3 / c⟩

end Vec4

/-- 3x3 real matrix, modelling SimTK `Mat33` / `Rotation` storage. -/
@[ext]
structure Mat33 where
  m00 : ℝ
  m01 : ℝ
  m02 : ℝ
  m10 : ℝ
  m11 : ℝ
  m12 : ℝ
  m20 : ℝ
  m21 : ℝ
  m22 : ℝ

namespace Mat33

def identity : Mat33 := ⟨1, 0, 0, 0, 1, 0, 0, 0, 1⟩

def zero : Mat33 := ⟨0, 0, 0, 0, 0, 0, 0, 0, 0⟩

def add (a b : Mat33) : Mat33 :=
  ⟨a.m00 + b.m00, a.m01 + b.m01, a.m02 + b.m02,
   a.m10 + b.m10, a.m11 + b.m11, a.m12 + b.m12,
   a.m20 + b.m20, a.m21 + b.m21, a.m22 + b.m22⟩

def transpose (a : Mat33) : Mat33 :=
  ⟨a.m00, a.m10, a.m20, a.m01, a.m11, a.m21, a.m02, a.m12, a.m22⟩

def mul (a b : Mat33) : Mat33 :=
  ⟨a.m00 * b.m00 + a.m01 * b.m10 + a.m02 * b.m20,
   a.m00 * b.m01 + a.m01 * b.m11 + a.m02 * b.m21,
   a.m00 * b.m02 + a.m01 * b.m12 + a.m02 * b.m22,
   a.m10 * b.m00 + a.m11 * b.m10 + a.m12 * b.m20,
   a.m10 * b.m01 + a.m11 * b.m11 + a.m12 * b.m21,
   a.m10 * b.m02 + a.m11 * b.m12 + a.m12 * b.m22,
   a.m20 * b.m00 + a.m21 * b.m10 + a.m22 * b.m20,
   a.m20 * b.m01 + a.m21 * b.m11 + a.m22 * b.m21,
   a.m20 * b.m02 + a.m21 * b.m12 + a.m22 * b.m22⟩

def mulVec (a : Mat33) (v : Vec3) : Vec3 :=
  ⟨a.m00 * v.x + a.m01 * v.y + a.m02 * v.z,
   a.m10 * v.x + a.m11 * v.y + a.m12 * v.z,
   a.m20 * v.x + a.m21 * v.y + a.m22 * v.z⟩

/-- The third column: `Rotation::z()`, the z axis of the rotated frame. -/
def colz (a : Mat33) : Vec3 := ⟨a.m02, a.m12, a.m22⟩

end Mat33

/-- `crossMat(v)`: the skew-symmetric matrix such that `crossMat(v)*w = v % w`. -/
def crossMat (v : Vec3) : Mat33 :=
  ⟨0, -v.z, v.y, v.z, 0, -v.x, -v.y, v.x, 0⟩

/-- Spatial vector (angular part, linear part), modelling `SpatialVec = Vec2<Vec3>`. -/
@[ext]
structure SpatialVec where
  ang : Vec3
  lin : Vec3

namespace SpatialVec

def zero : SpatialVec := ⟨Vec3.zero, Vec3.zero⟩

def add (a b : SpatialVec) : SpatialVec := ⟨a.ang.add b.ang, a.lin.add b.lin⟩

end SpatialVec

/-- Spatial (6x6) matrix in 3x3 blocks, modelling `SpatialMat = Mat22<Mat33>`. -/
@[ext]
structure SpatialMat where
  aa : Mat33
  al : Mat33
  la : Mat33
  ll : Mat33

namespace SpatialMat

def zero : SpatialMat := ⟨Mat33.zero, Mat33.zero, Mat33.zero, Mat33.zero⟩

/-- Block transpose of a 2x2 block matrix (each block transposed, off-blocks swapped),
modelling the `~` operator on `SpatialMat`. -/
def transpose (m : SpatialMat) : SpatialMat :=
  ⟨m.aa.transpose, m.la.transpose, m.al.transpose, m.ll.transpose⟩

def mulVec (m : SpatialMat) (v : SpatialVec) : SpatialVec :=
  ⟨(m.aa.mulVec v.ang).add (m.al.mulVec v.lin),
   (m.la.mulVec v.ang).add (m.ll.mulVec v.lin)⟩

end SpatialMat

/-- `PhiMatrix(p)`: the rigid-body shift operator built from the parent-to-child
offset `p_PB_G`; as a spatial matrix it is `[[I, crossMat(p)], [0, I]]`
(RigidBodyNode.h convention: `Phi * F` shifts forces child-to-parent, `~Phi * V`
shifts velocities parent-to-child). -/
def PhiMatrix (p : Vec3) : SpatialMat :=
  ⟨Mat33.identity, crossMat p, Mat33.zero, Mat33.identity⟩

/-- Transform (rotation + translation), modelling SimTK `Transform`:
`R` is the rotation `R_FM`, `p` the position of the M origin in F. -/
@[ext]
structure Transform where
  R : Mat33
  p : Vec3

/-! ## External rotation-library primitives (given linear-algebra library)

These functions belong to the SimTK math library that the repository consumes
as a correct given collaborator; they are modelled from their standard
mathematical definitions. -/

/-- `Rotation::setRotationFromAngleAboutX`. -/
def setRotationFromAngleAboutX (θ : ℝ) : Mat33 :=
  ⟨1, 0, 0,
   0, Real.cos θ, -Real.sin θ,
   0, Real.sin θ, Real.cos θ⟩

/-- `Rotation::setRotationFromAngleAboutY`. -/
def setRotationFromAngleAboutY (θ : ℝ) : Mat33 :=
  ⟨Real.cos θ, 0, Real.sin θ,
   0, 1, 0,
   -Real.sin θ, 0, Real.cos θ⟩

/-- `Rotation::setRotationFromAngleAboutZ`. -/
def setRotationFromAngleAboutZ (θ : ℝ) : Mat33 :=
  ⟨Real.cos θ, -Real.sin θ, 0,
   Real.sin θ, Real.cos θ, 0,
   0, 0, 1⟩

/-- `Rotation::setRotationToBodyFixedXYZ(a)`: body-fixed 1-2-3 Euler sequence,
`Rx(a.x) * Ry(a.y) * Rz(a.z)`. -/
def setRotationToBodyFixedXYZ (a : Vec3) : Mat33 :=
  (setRotationFromAngleAboutX a.x).mul
    ((setRotationFromAngleAboutY a.y).mul (setRotationFromAngleAboutZ a.z))

/-- The `Quaternion(Vec4)` constructor: normalizes its argument. -/
def quaternionOfVec4 (v : Vec4) : Vec4 := v.divR v.norm

/-- `Rotation::setRotationFromQuaternion(q)` for a unit quaternion
`q = (q0, q1, q2, q3)` (scalar part first): the standard direction-cosine matrix. -/
def setRotationFromQuaternion (q : Vec4) : Mat33 :=
  ⟨q.e0 ^ 2 + q.e1 ^ 2 - q.e2 ^ 2 - q.e3 ^ 2,
   2 * (q.e1 * q.e2 - q.e0 * q.e3),
   2 * (q.e1 * q.e3 + q.e0 * q.e2),
   2 * (q.e1 * q.e2 + q.e0 * q.e3),
   q.e0 ^ 2 - q.e1 ^ 2 + q.e2 ^ 2 - q.e3 ^ 2,
   2 * (q.e2 * q.e3 - q.e0 * q.e1),
   2 * (q.e1 * q.e3 - q.e0 * q.e2),
   2 * (q.e2 * q.e3 + q.e0 * q.e1),
   q.e0 ^ 2 - q.e1 ^ 2 - q.e2 ^ 2 + q.e3 ^ 2⟩

/-- Spec-side definition (for claim C4): the rotation by angle `θ` about a unit
axis `u`, by the Rodrigues axis-angle formula
`cos θ · I + sin θ · crossMat u + (1 − cos θ) · u uᵀ`. -/
def rotationAboutUnitAxis (u : Vec3) (θ : ℝ) : Mat33 :=
  ⟨Real.cos θ + (1 - Real.cos θ) * (u.x * u.x),
   -Real.sin θ * u.z + (1 - Real.cos θ) * (u.x * u.y),
   Real.sin θ * u.y + (1 - Real.cos θ) * (u.x * u.z),
   Real.sin θ * u.z + (1 - Real.cos θ) * (u.y * u.x),
   Real.cos θ + (1 - Real.cos θ) * (u.y * u.y),
   -Real.sin θ * u.x + (1 - Real.cos θ) * (u.y * u.z),
   -Real.sin θ * u.y + (1 - Real.cos θ) * (u.z * u.x),
   Real.sin θ * u.x + (1 - Real.cos θ) * (u.z * u.y),
   Real.cos θ + (1 - Real.cos θ) * (u.z * u.z)⟩

/-- The slice of the model/state context a joint implementation reads
(`SBStateDigest`): the per-run Euler-angle modeling flag and this node's view
of the global coordinate and speed vectors. -/
structure SBStateDigest where
  useEulerAngles : Bool
  q : ℕ → ℝ
  u : ℕ → ℝ

/-! ## Global q / u vector slot access

The global vectors q and u are modelled as `ℕ → ℝ`; a node owns a contiguous
slice starting at its `qIndex` / `uIndex` (the `toQ` / `to1Q` / `toQuat` ...
accessors of `RigidBodyNodeSpec`). -/

/-- `fromQuat(q)`: read this node's 4 quaternion slots starting at `qIndex`. -/
def fromQuat (qIndex : ℕ) (q : ℕ → ℝ) : Vec4 :=
  ⟨q qIndex, q (qIndex + 1), q (qIndex + 2), q (qIndex + 3)⟩

/-- `toQuat(q) = v`: overwrite this node's 4 quaternion slots, leaving all
other entries of the global vector untouched. -/
def setQuat (qIndex : ℕ) (q : ℕ → ℝ) (v : Vec4) : ℕ → ℝ := fun i =>
  if i = qIndex then v.e0
  else if i = qIndex + 1 then v.e1
  else if i = qIndex + 2 then v.e2
  else if i = qIndex + 3 then v.e3
  else q i

/-! ## Joint models (RigidBodyNode.cpp)

One namespace per `RBNode...` class; member functions keep their C++ names.
A spatial-vector list models the `HType` matrix column by column. -/

namespace RBNodeTranslate

/-- RigidBodyNode.cpp lines 432-434: the only rotation a Cartesian mobilizer can
represent is identity, so `q` is left untouched. -/
def setQToFitRotationImpl (sbs : SBStateDigest) (R_FM : Mat33) (q : ℕ → ℝ) : ℕ → ℝ := q

/-- RigidBodyNode.cpp lines 440-442: the only angular velocity this joint can
represent is zero, so `u` is left untouched. -/
def setUToFitAngularVelocityImpl (sbs : SBStateDigest) (w_FM : Vec3) (u : ℕ → ℝ) : ℕ → ℝ := u

/-- RigidBodyNode.cpp lines 491-498. -/
def calcAcrossJointVelocityJacobianDot (sbs : SBStateDigest) : List SpatialVec :=
  [⟨Vec3.zero, Vec3.zero⟩, ⟨Vec3.zero, Vec3.zero⟩, ⟨Vec3.zero, Vec3.zero⟩]

end RBNodeTranslate

namespace RBNodeSlider

/-- RigidBodyNode.cpp lines 551-554: `to1Q(q) = p_FM[0]` — only the single
owned coordinate slot is written, with the x component of the request. -/
def setQToFitTranslationImpl (qIndex : ℕ) (sbs : SBStateDigest) (p_FM : Vec3)
    (q : ℕ → ℝ) : ℕ → ℝ :=
  Function.update q qIndex p_FM.x

/-- RigidBodyNode.cpp lines 605-610. -/
def calcAcrossJointVelocityJacobianDot (sbs : SBStateDigest) : List SpatialVec :=
  [⟨Vec3.zero, Vec3.zero⟩]

end RBNodeSlider

namespace RBNodeTorsion

/-- RigidBodyNode.cpp lines 706-717: `X_FM.updR().setRotationFromAngleAboutZ(theta);
X_FM.updP() = 0.` with `theta = from1Q(q)`. -/
def calcAcrossJointTransform (q1 : ℝ) : Transform :=
  ⟨setRotationFromAngleAboutZ q1, Vec3.zero⟩

/-- RigidBodyNode.cpp lines 722-727: `H_FM(0) = SpatialVec(Vec3(0,0,1), Vec3(0))`. -/
def calcAcrossJointVelocityJacobian (sbs : SBStateDigest) : List SpatialVec :=
  [⟨⟨0, 0, 1⟩, Vec3.zero⟩]

/-- RigidBodyNode.cpp lines 731-736. -/
def calcAcrossJointVelocityJacobianDot (sbs : SBStateDigest) : List SpatialVec :=
  [⟨Vec3.zero, Vec3.zero⟩]

end RBNodeTorsion

namespace RBNodeScrew

/-- RigidBodyNode.cpp lines 797-799: `to1Q(q) = p_FM[2]/pitch` — unguarded
division by the member `pitch`. -/
def setQToFitTranslationImpl (pitch : ℝ) (p_FM : Vec3) : ℝ := p_FM.z / pitch

/-- RigidBodyNode.cpp lines 806-810: `to1U(u) = v_FM[2]/pitch`. -/
def setUToFitLinearVelocityImpl (pitch : ℝ) (v_FM : Vec3) : ℝ := v_FM.z / pitch

/-- RigidBodyNode.cpp lines 839-848: rotation about z by `theta = from1Q(q)` and
translation `Vec3(0,0,theta*pitch)`. -/
def calcAcrossJointTransform (pitch q1 : ℝ) : Transform :=
  ⟨setRotationFromAngleAboutZ q1, ⟨0, 0, q1 * pitch⟩⟩

/-- RigidBodyNode.cpp lines 861-866. -/
def calcAcrossJointVelocityJacobianDot (sbs : SBStateDigest) : List SpatialVec :=
  [⟨Vec3.zero, Vec3.zero⟩]

end RBNodeScrew

namespace RBNodeCylinder

/-- RigidBodyNode.cpp lines 990-996. -/
def calcAcrossJointVelocityJacobianDot (sbs : SBStateDigest) : List SpatialVec :=
  [⟨Vec3.zero, Vec3.zero⟩, ⟨Vec3.zero, Vec3.zero⟩]

end RBNodeCylinder

namespace RBNodePlanar

/-- RigidBodyNode.cpp lines 1447-1454. -/
def calcAcrossJointVelocityJacobianDot (sbs : SBStateDigest) : List SpatialVec :=
  [⟨Vec3.zero, Vec3.zero⟩, ⟨Vec3.zero, Vec3.zero⟩, ⟨Vec3.zero, Vec3.zero⟩]

end RBNodePlanar

namespace RBNodeGimbal

/-- RigidBodyNode.cpp lines 1560-1567. -/
def calcAcrossJointVelocityJacobianDot (sbs : SBStateDigest) : List SpatialVec :=
  [⟨Vec3.zero, Vec3.zero⟩, ⟨Vec3.zero, Vec3.zero⟩, ⟨Vec3.zero, Vec3.zero⟩]

end RBNodeGimbal

namespace RBNodeBall

/-- RigidBodyNode.cpp lines 1804-1811. -/
def calcAcrossJointVelocityJacobianDot (sbs : SBStateDigest) : List SpatialVec :=
  [⟨Vec3.zero, Vec3.zero⟩, ⟨Vec3.zero, Vec3.zero⟩, ⟨Vec3.zero, Vec3.zero⟩]

/-- RigidBodyNode.cpp lines 1973-1990 (`RBNodeBall::enforceQuaternionConstraints`):
with Euler angles in use, return false and change nothing; otherwise replace the
quaternion slice by `quat / quat.norm()`, remove the error-estimate component
along the new quaternion when a non-empty `qErrest` is supplied, and return true.
Result is (new q, new qErrest, returned Bool). -/
def enforceQuaternionConstraints (qIndex : ℕ) (sbs : SBStateDigest)
    (q : ℕ → ℝ) (qErrest : Option (ℕ → ℝ)) :
    (ℕ → ℝ) × Option (ℕ → ℝ) × Bool :=
  if sbs.useEulerAngles then (q, qErrest, false)
  else
    let quat := (fromQuat qIndex q).divR (fromQuat qIndex q).norm
    let qOut := setQuat qIndex q quat
    let qErrOut := qErrest.map (fun e =>
      let qerr := fromQuat qIndex e
      setQuat qIndex e (qerr.sub (Vec4.smul (Vec4.dot qerr quat) quat)))
    (qOut, qErrOut, true)

end RBNodeBall

namespace RBNodeEllipsoid

/-- RigidBodyNode.cpp lines 2209-2230 (`RBNodeEllipsoid::calcAcrossJointTransform`):
rotation from the Euler triple or the (normalized) quaternion, then the M origin
placed at `(semi[0]*n[0], semi[1]*n[1], semi[2]*n[2])` where `n = X_F0M0.z()`.
The Euler-vs-quaternion branch reads the model flag and the respective q slots. -/
def calcAcrossJointTransform (semi : Vec3) (useEulerAngles : Bool)
    (qEuler : Vec3) (qQuat : Vec4) : Transform :=
  let R : Mat33 :=
    if useEulerAngles then setRotationToBodyFixedXYZ qEuler
    else setRotationFromQuaternion (quaternionOfVec4 qQuat)
  let n := R.colz
  ⟨R, ⟨semi.x * n.x, semi.y * n.y, semi.z * n.z⟩⟩

end RBNodeEllipsoid

namespace RBNodeFree

/-- RigidBodyNode.cpp lines 2563-2574. -/
def calcAcrossJointVelocityJacobianDot (sbs : SBStateDigest) : List SpatialVec :=
  [⟨Vec3.zero, Vec3.zero⟩, ⟨Vec3.zero, Vec3.zero⟩, ⟨Vec3.zero, Vec3.zero⟩,
   ⟨Vec3.zero, Vec3.zero⟩, ⟨Vec3.zero, Vec3.zero⟩, ⟨Vec3.zero, Vec3.zero⟩]

/-- RigidBodyNode.cpp lines 2715-2732 (`RBNodeFree::enforceQuaternionConstraints`):
same body as the Ball variant — the quaternion occupies the first four of this
node's seven q slots. -/
def enforceQuaternionConstraints (qIndex : ℕ) (sbs : SBStateDigest)
    (q : ℕ → ℝ) (qErrest : Option (ℕ → ℝ)) :
    (ℕ → ℝ) × Option (ℕ → ℝ) × Bool :=
  if sbs.useEulerAngles then (q, qErrest, false)
  else
    let quat := (fromQuat qIndex q).divR (fromQuat qIndex q).norm
    let qOut := setQuat qIndex q quat
    let qErrOut := qErrest.map (fun e =>
      let qerr := fromQuat qIndex e
      setQuat qIndex e (qerr.sub (Vec4.smul (Vec4.dot qerr quat) quat)))
    (qOut, qErrOut, true)

end RBNodeFree

/-! ## Joint-independent tree-node recursion steps (RigidBodyNode.cpp 73-182) -/

namespace RigidBodyNode

/-- RigidBodyNode.cpp lines 106-112 (`calcJointIndependentKinematicsVel`):
`updV_GB(mc) = ~getPhi(pc) * parent->getV_GB(mc) + getV_PB_G(mc)` — the body
spatial velocity from the parent velocity shifted through the transposed Phi
operator plus the cross-joint spatial velocity. -/
def calcJointIndependentKinematicsVel (p_PB_G : Vec3) (V_GP V_PB_G : SpatialVec) :
    SpatialVec :=
  ((PhiMatrix p_PB_G).transpose.mulVec V_GP).add V_PB_G

/-- Inputs already realized when `calcJointIndependentDynamicsVel` runs:
position-cache and velocity-cache entries of this node and its parent, plus
the articulated body inertia `P` and this node's `VD_PB_G = HDot*u`. -/
structure DynamicsVelInputs where
  mass : ℝ
  inertia_OB_G : Mat33
  cb_G : Vec3
  p_PB_G : Vec3
  V_GP : SpatialVec
  V_GB : SpatialVec
  VD_PB_G : SpatialVec
  parentTotalCoriolis : SpatialVec
  P : SpatialMat

/-- The five velocity-dependent dynamics-cache entries written by
`calcJointIndependentDynamicsVel`. -/
structure DynamicsVelOutputs where
  gyroscopicForce : SpatialVec
  coriolisAcceleration : SpatialVec
  totalCoriolisAcceleration : SpatialVec
  centrifugalForces : SpatialVec
  totalCentrifugalForces : SpatialVec

/-- RigidBodyNode.cpp lines 127-182 (`calcJointIndependentDynamicsVel`):
for the Ground node (`nodeNum == 0`) every term is set to exactly zero;
otherwise the gyroscopic force is `(w % (I*w), m*(w % (w % c)))`, the Coriolis
acceleration `SpatialVec(0, w_GP % (v_GB - v_GP)) + VD_PB_G`, the total
Coriolis acceleration the parent total shifted by `~Phi` plus this node's, and
the (total) centrifugal forces `P * a + gyroscopic`. -/
def calcJointIndependentDynamicsVel (nodeNum : ℕ) (inp : DynamicsVelInputs) :
    DynamicsVelOutputs :=
  if nodeNum = 0 then
    ⟨SpatialVec.zero, SpatialVec.zero, SpatialVec.zero, SpatialVec.zero, SpatialVec.zero⟩
  else
    let w_GB := inp.V_GB.ang
    let v_GB := inp.V_GB.lin
    let gyro : SpatialVec :=
      ⟨Vec3.cross w_GB (inp.inertia_OB_G.mulVec w_GB),
       Vec3.smul inp.mass (Vec3.cross w_GB (Vec3.cross w_GB inp.cb_G))⟩
    let w_GP := inp.V_GP.ang
    let v_GP := inp.V_GP.lin
    let coriolis : SpatialVec :=
      SpatialVec.add ⟨Vec3.zero, Vec3.cross w_GP (v_GB.sub v_GP)⟩ inp.VD_PB_G
    let totalCoriolis : SpatialVec :=
      SpatialVec.add
        ((PhiMatrix inp.p_PB_G).transpose.mulVec inp.parentTotalCoriolis) coriolis
    let centrifugal : SpatialVec := SpatialVec.add (inp.P.mulVec coriolis) gyro
    let totalCentrifugal : SpatialVec :=
      SpatialVec.add (inp.P.mulVec totalCoriolis) gyro
    ⟨gyro, coriolis, totalCoriolis, centrifugal, totalCentrifugal⟩

end RigidBodyNode

namespace RBNodeWeld

/-- RigidBodyNode.cpp lines 3531-3538 (`RBNodeWeld::realizeVelocity`): the weld
sets `V_FM = 0` and `V_PB_G = 0`, then computes the body spatial velocity with
the joint-independent step, so `V_GB = ~Phi * V_GP`. -/
def realizeVelocityV_GB (p_PB_G : Vec3) (V_GP : SpatialVec) : SpatialVec :=
  RigidBodyNode.calcJointIndependentKinematicsVel p_PB_G V_GP SpatialVec.zero

/-- RigidBodyNode.cpp lines 3540-3550 (`RBNodeWeld::realizeDynamics`): the weld
sets only `VD_PB_G = 0` and then runs the general, mobilizer-independent
`calcJointIndependentDynamicsVel`; its `V_GB` was produced by
`realizeVelocity`. -/
def realizeDynamics (nodeNum : ℕ) (mass : ℝ) (inertia_OB_G : Mat33) (cb_G p_PB_G : Vec3)
    (V_GP parentTotalCoriolis : SpatialVec) (P : SpatialMat) :
    RigidBodyNode.DynamicsVelOutputs :=
  RigidBodyNode.calcJointIndependentDynamicsVel nodeNum
    { mass := mass
      inertia_OB_G := inertia_OB_G
      cb_G := cb_G
      p_PB_G := p_PB_G
      V_GP := V_GP
      V_GB := realizeVelocityV_GB p_PB_G V_GP
      VD_PB_G := SpatialVec.zero
      parentTotalCoriolis := parentTotalCoriolis
      P := P }

end RBNodeWeld

/-! ## Gravity force element (Force_Gravity.cpp) -/

namespace Gravity

/-- `Force::GravityImpl::InstanceVars` (Force_Gravity.cpp lines 43-52): the
settable per-state parameters — down direction `d`, magnitude `g`, zero height
`z`, and the per-mobilized-body immunity flags. -/
structure InstanceVars where
  d : Vec3
  g : ℝ
  z : ℝ
  mobodIsImmune : List Bool

/-- The immunity flag for body `mbx` (out-of-range reads as false, matching the
`size()`-guarded accesses in the source). -/
def immuneAt (iv : InstanceVars) (mbx : ℕ) : Bool := iv.mobodIsImmune.getD mbx false

/-- The `GravityImpl` constructor (Force_Gravity.cpp lines 71-79): the default
immunity array has one entry per body, all false, then
`defMobodIsImmune.front() = true` — Ground is always immune. -/
def defaultImmuneOfConstructor (nb : ℕ) : List Bool :=
  (List.replicate nb false).set 0 true

/-- `GravityImpl::setMobodIsImmuneByDefault` (Force_Gravity.cpp lines 81-86):
targeting body 0 returns immediately; otherwise the array is grown with `false`
entries if needed and slot `mbx` is written. -/
def setMobodIsImmuneByDefault (l : List Bool) (mbx : ℕ) (isImmune : Bool) : List Bool :=
  if mbx = 0 then l
  else
    let l2 := if l.length < mbx + 1 then l ++ List.replicate (mbx + 1 - l.length) false else l
    l2.set mbx isImmune

/-- `GravityImpl::realizeTopology` resize (Force_Gravity.cpp lines 131-132):
`defMobodIsImmune.resize(nb, false)` — C++ semantics: truncate or grow with
`false`. -/
def resizeImmune (l : List Bool) (nb : ℕ) : List Bool :=
  if l.length = nb then l else l.take nb ++ List.replicate (nb - l.length) false

/-- `GravityImpl::setMobodIsImmune` (Force_Gravity.cpp lines 94-99): targeting
body 0 returns without touching the state; otherwise flag `mbx` of the
state's instance variables is written. -/
def setMobodIsImmune (iv : InstanceVars) (mbx : ℕ) (isImmune : Bool) : InstanceVars :=
  if mbx = 0 then iv
  else { iv with mobodIsImmune := iv.mobodIsImmune.set mbx isImmune }

/-- The error message raised by `Force::Gravity::setMagnitude`
(Force_Gravity.cpp lines 363-366). -/
def setMagnitudeErrorMessage : String :=
  "The gravity magnitude g must be nonnegative but was specified as %g."

/-- The error message raised by `Force::Gravity::setGravityVector`
(Force_Gravity.cpp lines 331-337). -/
def setGravityVectorErrorMessage : String :=
  "This method requires a non-zero Vec3 as the gravity vector because it has to separate the gravity direction and magnitude. If you want to disable this Gravity force element in this State use setMagnitude(0) instead which leaves the direction unchanged but sets the magnitude to zero."

/-- `Force::Gravity::setMagnitude` (Force_Gravity.cpp lines 361-369):
`SimTK_ERRCHK1_ALWAYS(g >= 0, ...)` raises before any state is touched;
on success only the magnitude instance variable is assigned. -/
def setMagnitude (g : ℝ) (iv : InstanceVars) : Except String InstanceVars :=
  if 0 ≤ g then Except.ok { iv with g := g }
  else Except.error setMagnitudeErrorMessage

/-- `Force::Gravity::setGravityVector` (Force_Gravity.cpp lines 328-341):
`g = gravity.norm()`; `SimTK_ERRCHK_ALWAYS(g > 0, ...)` raises before any state
is touched; on success the direction is set to `gravity/g` and the magnitude
to `g`. -/
def setGravityVector (gravity : Vec3) (iv : InstanceVars) : Except String InstanceVars :=
  let g := gravity.norm
  if 0 < g then
    Except.ok { iv with d := Vec3.smul (1 / g) gravity, g := g }
  else Except.error setGravityVectorErrorMessage

/-- `Force::Gravity::setDownDirection` (Force_Gravity.cpp lines 348-356),
success path: only the direction is assigned. (The finiteness check cannot
fail over `ℝ`.) -/
def setDownDirection (down : Vec3) (iv : InstanceVars) : InstanceVars :=
  { iv with d := down }

/-- `Force::Gravity::setZeroHeight` (Force_Gravity.cpp lines 378-382). -/
def setZeroHeight (zeroHeight : ℝ) (iv : InstanceVars) : InstanceVars :=
  { iv with z := zeroHeight }

/-- The instance-variable states reachable through the gravity force element's
interface: `realizeTopology` copies the default (constructor plus any number of
`setMobodIsImmuneByDefault` calls and topology resizes) into the state, after
which the per-state setters apply.  Rejected setter calls raise before touching
the state, so they do not appear as steps. -/
inductive DefaultImmuneReachable : List Bool → Prop
  | ctor (nb : ℕ) (h : 1 ≤ nb) : DefaultImmuneReachable (defaultImmuneOfConstructor nb)
  | setDefault (l : List Bool) (mbx : ℕ) (b : Bool) :
      DefaultImmuneReachable l → DefaultImmuneReachable (setMobodIsImmuneByDefault l mbx b)
  | topo (l : List Bool) (nb : ℕ) (h : 1 ≤ nb) :
      DefaultImmuneReachable l → DefaultImmuneReachable (resizeImmune l nb)

/-- Reachable instance-variable states of the gravity element. -/
inductive Reachable : InstanceVars → Prop
  | init (d : Vec3) (g z : ℝ) (l : List Bool) :
      DefaultImmuneReachable l → Reachable ⟨d, g, z, l⟩
  | stepImmune (iv : InstanceVars) (mbx : ℕ) (b : Bool) :
      Reachable iv → Reachable (setMobodIsImmune iv mbx b)
  | stepMagnitude (iv iv2 : InstanceVars) (g : ℝ) :
      Reachable iv → setMagnitude g iv = Except.ok iv2 → Reachable iv2
  | stepGravityVector (iv iv2 : InstanceVars) (v : Vec3) :
      Reachable iv → setGravityVector v iv = Except.ok iv2 → Reachable iv2
  | stepDownDirection (iv : InstanceVars) (down : Vec3) :
      Reachable iv → Reachable (setDownDirection down iv)
  | stepZeroHeight (iv : InstanceVars) (h : ℝ) :
      Reachable iv → Reachable (setZeroHeight h iv)

/-- The spatial gravity force applied to a non-immune body `mbx ≥ 1`
(Force_Gravity.cpp lines 441-451): `F = m*g*d` acting at the body's mass
center, contributing the moment `p_CB_G % F` about the body origin. -/
def bodyForceFormula (iv : InstanceVars) (m : ℕ → ℝ) (p_CB_G : ℕ → Vec3) (mbx : ℕ) :
    SpatialVec :=
  let gravity := Vec3.smul iv.g iv.d
  let F_CB_G := Vec3.smul (m mbx) gravity
  ⟨Vec3.cross (p_CB_G mbx) F_CB_G, F_CB_G⟩

/-- The per-body force cache entries after `realizeInstance` followed by
`ensureForceCacheValid` (Force_Gravity.cpp lines 152-165 and 417-468):
with `g == 0` everything was zeroed at Instance stage; immune bodies were
zeroed at Instance stage and are skipped by the evaluation loop; the Ground
entry (body 0) is written to zero by both `setToZero` and `setToNaN` and the
evaluation loop starts at body 1; bodies at or beyond the body count are never
touched by the loop (modelled as zero, the allocation default of interest).
All remaining bodies get the gravity body-force formula. -/
def ensuredBodyForce (iv : InstanceVars) (nb : ℕ) (m : ℕ → ℝ) (p_CB_G : ℕ → Vec3)
    (mbx : ℕ) : SpatialVec :=
  if iv.g = 0 then SpatialVec.zero
  else if immuneAt iv mbx then SpatialVec.zero
  else if mbx = 0 then SpatialVec.zero
  else if mbx < nb then bodyForceFormula iv m p_CB_G mbx
  else SpatialVec.zero

end Gravity

/-! ## Theorems -/

/-- C2: for every joint variant whose velocity Jacobian H is constant in the F
frame (translate, slider, torsion, screw, cylinder, planar, gimbal, ball, free),
`calcAcrossJointVelocityJacobianDot` returns the all-zero matrix — every column
the zero spatial vector — for every state (hence for every q and every u). -/
theorem constantH_jacobianDot_zero (sbs : SBStateDigest) :
    RBNodeTranslate.calcAcrossJointVelocityJacobianDot sbs =
      List.replicate 3 SpatialVec.zero ∧
    RBNodeSlider.calcAcrossJointVelocityJacobianDot sbs =
      List.replicate 1 SpatialVec.zero ∧
    RBNodeTorsion.calcAcrossJointVelocityJacobianDot sbs =
      List.replicate 1 SpatialVec.zero ∧
    RBNodeScrew.calcAcrossJointVelocityJacobianDot sbs =
      List.replicate 1 SpatialVec.zero ∧
    RBNodeCylinder.calcAcrossJointVelocityJacobianDot sbs =
      List.replicate 2 SpatialVec.zero ∧
    RBNodePlanar.calcAcrossJointVelocityJacobianDot sbs =
      List.replicate 3 SpatialVec.zero ∧
    RBNodeGimbal.calcAcrossJointVelocityJacobianDot sbs =
      List.replicate 3 SpatialVec.zero ∧
    RBNodeBall.calcAcrossJointVelocityJacobianDot sbs =
      List.replicate 3 SpatialVec.zero ∧
    RBNodeFree.calcAcrossJointVelocityJacobianDot sbs =
      List.replicate 6 SpatialVec.zero :=
  ⟨rfl, rfl, rfl, rfl, rfl, rfl, rfl, rfl, rfl⟩

/-- C4: for the pin/torsion joint and every coordinate value, the across-joint
transform has translation exactly `(0,0,0)` and rotation exactly the rotation by
the coordinate about the z axis (the Rodrigues axis-angle rotation about the
unit axis `(0,0,1)`), and the velocity Jacobian is exactly the single column
`[(0,0,1), (0,0,0)]`. -/
theorem torsion_transform_and_jacobian (θ : ℝ) (sbs : SBStateDigest) :
    (RBNodeTorsion.calcAcrossJointTransform θ).p = Vec3.zero ∧
    (RBNodeTorsion.calcAcrossJointTransform θ).R = rotationAboutUnitAxis ⟨0, 0, 1⟩ θ ∧
    RBNodeTorsion.calcAcrossJointVelocityJacobian sbs = [⟨⟨0, 0, 1⟩, ⟨0, 0, 0⟩⟩] := by
  refine ⟨rfl, ?_, rfl⟩
  ext <;>
    simp [RBNodeTorsion.calcAcrossJointTransform, setRotationFromAngleAboutZ,
      rotationAboutUnitAxis] <;>
    ring

/-- C6: the joint-independent Velocity-stage step computes the body spatial
velocity as the transposed Phi shift operator applied to the parent body
velocity plus the cross-joint spatial velocity, `V_GB = ~Phi * V_GP + V_PB_G`;
in components the Phi-transpose shift carries the angular part through and adds
`w_GP % p_PB_G` to the linear part. -/
theorem velocity_kinematics_step (p : Vec3) (V_GP V_PB_G : SpatialVec) :
    RigidBodyNode.calcJointIndependentKinematicsVel p V_GP V_PB_G =
      ((PhiMatrix p).transpose.mulVec V_GP).add V_PB_G ∧
    RigidBodyNode.calcJointIndependentKinematicsVel p V_GP V_PB_G =
      ⟨V_GP.ang.add V_PB_G.ang,
       (V_GP.lin.add (Vec3.cross V_GP.ang p)).add V_PB_G.lin⟩ := by
  refine ⟨rfl, ?_⟩
  ext <;>
    simp [RigidBodyNode.calcJointIndependentKinematicsVel, PhiMatrix,
      SpatialMat.transpose, SpatialMat.mulVec, Mat33.transpose, Mat33.mulVec,
      Mat33.identity, Mat33.zero, crossMat, SpatialVec.add, Vec3.add, Vec3.cross] <;>
    ring

/-- C5: the fit operators only project onto the joint's representable subspace:
the Translation joint's rotation fitter leaves q entirely unchanged and its
angular-velocity fitter leaves u entirely unchanged; the Slider joint's
translation fitter writes only its single owned coordinate slot, with the x
component of the requested translation, and leaves every other entry of q
unchanged. -/
theorem fit_operators_project (sbs : SBStateDigest) :
    (∀ (R_FM : Mat33) (q : ℕ → ℝ),
        RBNodeTranslate.setQToFitRotationImpl sbs R_FM q = q) ∧
    (∀ (w_FM : Vec3) (u : ℕ → ℝ),
        RBNodeTranslate.setUToFitAngularVelocityImpl sbs w_FM u = u) ∧
    (∀ (qIndex : ℕ) (p_FM : Vec3) (q : ℕ → ℝ),
        RBNodeSlider.setQToFitTranslationImpl qIndex sbs p_FM q qIndex = p_FM.x) ∧
    (∀ (qIndex : ℕ) (p_FM : Vec3) (q : ℕ → ℝ) (i : ℕ), i ≠ qIndex →
        RBNodeSlider.setQToFitTranslationImpl qIndex sbs p_FM q i = q i) := by
  refine ⟨fun _ _ => rfl, fun _ _ => rfl, fun qIndex p q => ?_, fun qIndex p q i hi => ?_⟩
  · simp [RBNodeSlider.setQToFitTranslationImpl]
  · simp [RBNodeSlider.setQToFitTranslationImpl, Function.update_noteq hi]

/-- C5 witness: concrete instantiation of the slot-preservation clause. -/
theorem fit_operators_project_witness :
    RBNodeSlider.setQToFitTranslationImpl 0 ⟨false, fun _ => 0, fun _ => 0⟩
      ⟨5, 6, 7⟩ (fun _ => 2) 3 = 2 :=
  (fit_operators_project ⟨false, fun _ => 0, fun _ => 0⟩).2.2.2 0 ⟨5, 6, 7⟩
    (fun _ => 2) 3 (by norm_num)

/-- C10: with nonzero pitch, the screw joint's translation and linear-velocity
fitters are total and set the single coordinate (speed) to the z component of
the request divided by the pitch, and feeding the fitted coordinate back
through `calcAcrossJointTransform` reproduces the requested z translation
exactly, with the rotation being the rotation about z by that quotient. -/
theorem screw_translation_fit_roundtrip (pitch : ℝ) (hp : pitch ≠ 0)
    (p_FM v_FM : Vec3) :
    RBNodeScrew.setQToFitTranslationImpl pitch p_FM = p_FM.z / pitch ∧
    RBNodeScrew.setUToFitLinearVelocityImpl pitch v_FM = v_FM.z / pitch ∧
    (RBNodeScrew.calcAcrossJointTransform pitch
        (RBNodeScrew.setQToFitTranslationImpl pitch p_FM)).p = ⟨0, 0, p_FM.z⟩ ∧
    (RBNodeScrew.calcAcrossJointTransform pitch
        (RBNodeScrew.setQToFitTranslationImpl pitch p_FM)).R =
      setRotationFromAngleAboutZ (p_FM.z / pitch) := by
  refine ⟨rfl, rfl, ?_, rfl⟩
  simp [RBNodeScrew.calcAcrossJointTransform, RBNodeScrew.setQToFitTranslationImpl,
    div_mul_cancel₀ _ hp]

/-- C10 witness: pitch 2, requested translation `(0,0,6)` gives coordinate 3 and
the transform's translation is `(0,0,6)` again. -/
theorem screw_translation_fit_roundtrip_witness :
    (RBNodeScrew.calcAcrossJointTransform 2
        (RBNodeScrew.setQToFitTranslationImpl 2 ⟨0, 0, 6⟩)).p = ⟨0, 0, 6⟩ :=
  (screw_translation_fit_roundtrip 2 (by norm_num) ⟨0, 0, 6⟩ ⟨0, 0, 4⟩).2.2.1

/-- C1 counterexample: a Weld node (node number 1) whose parent rotates about z
with unit rate (`V_GP = ((0,0,1),(0,0,0))`, a state reached by mounting the
parent on a pin joint at the ground origin, for which the parent's own Coriolis
and total Coriolis terms are zero) and whose parent-to-child offset is
`p_PB_G = (1,0,0)` gets, from `RBNodeWeld::realizeDynamics`, the Coriolis
acceleration `(0, (-1,0,0))`, not the zero spatial vector: the Weld node does
not short-circuit the velocity-dependent dynamics terms to zero. -/
theorem weld_coriolis_not_zero :
    (RBNodeWeld.realizeDynamics 1 1 Mat33.identity Vec3.zero ⟨1, 0, 0⟩
        ⟨⟨0, 0, 1⟩, Vec3.zero⟩ SpatialVec.zero SpatialMat.zero).coriolisAcceleration ≠
      SpatialVec.zero := by
  intro hEq
  have hx := congrArg (fun s => s.lin.x) hEq
  simp [RBNodeWeld.realizeDynamics, RBNodeWeld.realizeVelocityV_GB,
    RigidBodyNode.calcJointIndependentDynamicsVel,
    RigidBodyNode.calcJointIndependentKinematicsVel, PhiMatrix,
    SpatialMat.transpose, SpatialMat.mulVec, Mat33.transpose, Mat33.mulVec,
    Mat33.identity, Mat33.zero, crossMat, SpatialVec.add, SpatialVec.zero,
    Vec3.add, Vec3.sub, Vec3.cross, Vec3.smul, Vec3.zero] at hx

/-- C1 (amended): the Ground node (node number 0) short-circuits every
velocity-dependent Dynamics-stage term to exactly zero for all inputs, and a
Weld node zeroes only the cross-joint terms (`V_PB_G`, `VD_PB_G`) and runs the
general joint-independent formulas, which yield exactly zero gyroscopic force,
Coriolis acceleration and total Coriolis acceleration whenever the parent's
spatial velocity and total Coriolis acceleration are zero — in particular for
any stationary tree — but not for all velocities (see the counterexample). -/
theorem ground_and_resting_weld_dynamics_zero
    (inp : RigidBodyNode.DynamicsVelInputs)
    (nodeNum : ℕ) (mass : ℝ) (inertia : Mat33) (cb p : Vec3) (P : SpatialMat)
    (V_GP parentTotal : SpatialVec)
    (hV : V_GP = SpatialVec.zero) (hT : parentTotal = SpatialVec.zero) :
    RigidBodyNode.calcJointIndependentDynamicsVel 0 inp =
      ⟨SpatialVec.zero, SpatialVec.zero, SpatialVec.zero, SpatialVec.zero,
       SpatialVec.zero⟩ ∧
    (RBNodeWeld.realizeDynamics nodeNum mass inertia cb p V_GP parentTotal
        P).gyroscopicForce = SpatialVec.zero ∧
    (RBNodeWeld.realizeDynamics nodeNum mass inertia cb p V_GP parentTotal
        P).coriolisAcceleration = SpatialVec.zero ∧
    (RBNodeWeld.realizeDynamics nodeNum mass inertia cb p V_GP parentTotal
        P).totalCoriolisAcceleration = SpatialVec.zero := by
  subst hV hT
  refine ⟨rfl, ?_⟩
  by_cases h0 : nodeNum = 0
  · subst h0
    refine ⟨rfl, rfl, rfl⟩
  · refine ⟨?_, ?_, ?_⟩ <;>
      · simp only [RBNodeWeld.realizeDynamics, RBNodeWeld.realizeVelocityV_GB,
          RigidBodyNode.calcJointIndependentDynamicsVel,
          RigidBodyNode.calcJointIndependentKinematicsVel, if_neg h0]
        ext <;>
          simp [PhiMatrix, SpatialMat.transpose, SpatialMat.mulVec, Mat33.transpose,
            Mat33.mulVec, Mat33.identity, Mat33.zero, crossMat, SpatialVec.add,
            SpatialVec.zero, Vec3.add, Vec3.sub, Vec3.cross, Vec3.smul, Vec3.zero]

/-- C1 amendment witness: concrete resting Weld node of node number 1. -/
theorem ground_and_resting_weld_dynamics_zero_witness :
    (RBNodeWeld.realizeDynamics 1 1 Mat33.identity Vec3.zero ⟨1, 0, 0⟩
        SpatialVec.zero SpatialVec.zero SpatialMat.zero).coriolisAcceleration =
      SpatialVec.zero :=
  (ground_and_resting_weld_dynamics_zero
      ⟨1, Mat33.identity, Vec3.zero, ⟨1, 0, 0⟩, SpatialVec.zero, SpatialVec.zero,
       SpatialVec.zero, SpatialVec.zero, SpatialMat.zero⟩
      1 1 Mat33.identity Vec3.zero ⟨1, 0, 0⟩ SpatialMat.zero
      SpatialVec.zero SpatialVec.zero rfl rfl).2.2.1

/-- C7: the ellipsoid joint's across-joint transform places the M origin at
`(semi_x*n_x, semi_y*n_y, semi_z*n_z)` where `n` is M's z axis expressed in F;
with unit semi-axes and the identity configuration (zero Euler angles, or the
identity quaternion), the rotation is the identity and the M origin sits at
exactly `(0,0,1)` in F. -/
theorem ellipsoid_transform_surface_point :
    ((RBNodeEllipsoid.calcAcrossJointTransform ⟨1, 1, 1⟩ true ⟨0, 0, 0⟩
        ⟨1, 0, 0, 0⟩).R = Mat33.identity ∧
      (RBNodeEllipsoid.calcAcrossJointTransform ⟨1, 1, 1⟩ true ⟨0, 0, 0⟩
        ⟨1, 0, 0, 0⟩).p = ⟨0, 0, 1⟩) ∧
    ((RBNodeEllipsoid.calcAcrossJointTransform ⟨1, 1, 1⟩ false ⟨0, 0, 0⟩
        ⟨1, 0, 0, 0⟩).R = Mat33.identity ∧
      (RBNodeEllipsoid.calcAcrossJointTransform ⟨1, 1, 1⟩ false ⟨0, 0, 0⟩
        ⟨1, 0, 0, 0⟩).p = ⟨0, 0, 1⟩) ∧
    (∀ (semi : Vec3) (useEulerAngles : Bool) (qEuler : Vec3) (qQuat : Vec4),
      (RBNodeEllipsoid.calcAcrossJointTransform semi useEulerAngles qEuler
          qQuat).p =
        ⟨semi.x * (RBNodeEllipsoid.calcAcrossJointTransform semi useEulerAngles
            qEuler qQuat).R.colz.x,
         semi.y * (RBNodeEllipsoid.calcAcrossJointTransform semi useEulerAngles
            qEuler qQuat).R.colz.y,
         semi.z * (RBNodeEllipsoid.calcAcrossJointTransform semi useEulerAngles
            qEuler qQuat).R.colz.z⟩) := by
  have hnorm : (Vec4.norm ⟨1, 0, 0, 0⟩) = 1 := by
    simp [Vec4.norm, Vec4.dot]
  have hquat : quaternionOfVec4 ⟨1, 0, 0, 0⟩ = ⟨1, 0, 0, 0⟩ := by
    simp [quaternionOfVec4, hnorm, Vec4.divR]
  refine ⟨⟨?_, ?_⟩, ⟨?_, ?_⟩, fun semi f qE qQ => rfl⟩ <;>
    · ext <;>
        simp [RBNodeEllipsoid.calcAcrossJointTransform, hquat,
          setRotationToBodyFixedXYZ, setRotationFromAngleAboutX,
          setRotationFromAngleAboutY, setRotationFromAngleAboutZ,
          setRotationFromQuaternion, Mat33.mul, Mat33.colz, Mat33.identity]

/-- C8: the gravity element's user-facing setters validate eagerly and
atomically — `setMagnitude` rejects every negative magnitude with the
parameter-naming error message, before any instance variable is written, and on
valid input assigns exactly the magnitude; `setGravityVector` rejects a
zero-norm vector the same way, and on valid input assigns exactly the direction
`gravity/norm` and the magnitude `norm`, leaving the zero height and the
immunity flags untouched. -/
theorem gravity_setters_validate_eagerly :
    (∀ (iv : Gravity.InstanceVars) (g : ℝ), g < 0 →
        Gravity.setMagnitude g iv =
          Except.error Gravity.setMagnitudeErrorMessage) ∧
    (∀ (iv : Gravity.InstanceVars) (g : ℝ), 0 ≤ g →
        Gravity.setMagnitude g iv =
          Except.ok ⟨iv.d, g, iv.z, iv.mobodIsImmune⟩) ∧
    (∀ (iv : Gravity.InstanceVars) (v : Vec3), v.norm = 0 →
        Gravity.setGravityVector v iv =
          Except.error Gravity.setGravityVectorErrorMessage) ∧
    (∀ (iv : Gravity.InstanceVars) (v : Vec3), 0 < v.norm →
        Gravity.setGravityVector v iv =
          Except.ok ⟨Vec3.smul (1 / v.norm) v, v.norm, iv.z, iv.mobodIsImmune⟩) := by
  refine ⟨fun iv g hg => ?_, fun iv g hg => ?_, fun iv v hv => ?_, fun iv v hv => ?_⟩
  · simp [Gravity.setMagnitude, not_le.mpr hg]
  · simp [Gravity.setMagnitude, hg]
  · simp [Gravity.setGravityVector, hv]
  · simp [Gravity.setGravityVector, hv]

/-- C8 witness: concrete instance variables; magnitude -1 and the zero vector
are rejected with the respective messages, magnitude 2 and the vector
`(0,0,3)` are accepted and write exactly the gravity fields. -/
theorem gravity_setters_validate_eagerly_witness :
    Gravity.setMagnitude (-1) ⟨⟨0, 0, 1⟩, 9, 0, [true]⟩ =
      Except.error Gravity.setMagnitudeErrorMessage ∧
    Gravity.setMagnitude 2 ⟨⟨0, 0, 1⟩, 9, 0, [true]⟩ =
      Except.ok ⟨⟨0, 0, 1⟩, 2, 0, [true]⟩ ∧
    Gravity.setGravityVector ⟨0, 0, 0⟩ ⟨⟨0, 0, 1⟩, 9, 0, [true]⟩ =
      Except.error Gravity.setGravityVectorErrorMessage ∧
    Gravity.setGravityVector ⟨0, 0, 3⟩ ⟨⟨0, 0, 1⟩, 9, 0, [true]⟩ =
      Except.ok ⟨Vec3.smul (1 / Vec3.norm ⟨0, 0, 3⟩) ⟨0, 0, 3⟩,
        Vec3.norm ⟨0, 0, 3⟩, 0, [true]⟩ := by
  have h3 : Vec3.norm ⟨0, 0, 3⟩ = 3 := by
    rw [Vec3.norm, show Vec3.dot ⟨0, 0, 3⟩ ⟨0, 0, 3⟩ = 3 ^ 2 by
      simp [Vec3.dot]; norm_num]
    exact Real.sqrt_sq (by norm_num)
  refine ⟨gravity_setters_validate_eagerly.1 _ _ (by norm_num),
    gravity_setters_validate_eagerly.2.1 _ _ (by norm_num),
    gravity_setters_validate_eagerly.2.2.1 _ _ ?_,
    gravity_setters_validate_eagerly.2.2.2 _ _ ?_⟩
  · simp [Vec3.norm, Vec3.dot]
  · rw [h3]; norm_num

/-! Helper lemmas about the `Vec4` quaternion algebra, shared by the
quaternion-normalization proofs. -/

theorem Vec4.dot_self_nonneg (v : Vec4) : 0 ≤ Vec4.dot v v := by
  have h : Vec4.dot v v =
      v.e0 * v.e0 + v.e1 * v.e1 + v.e2 * v.e2 + v.e3 * v.e3 := rfl
  rw [h]
  nlinarith [mul_self_nonneg v.e0, mul_self_nonneg v.e1, mul_self_nonneg v.e2,
    mul_self_nonneg v.e3]

theorem Vec4.eq_zero_of_dot_self_eq_zero (v : Vec4) (h : Vec4.dot v v = 0) :
    v = Vec4.zero := by
  have hd : v.e0 * v.e0 + v.e1 * v.e1 + v.e2 * v.e2 + v.e3 * v.e3 = 0 := h
  have h0 : v.e0 = 0 := by
    nlinarith [mul_self_nonneg v.e0, mul_self_nonneg v.e1, mul_self_nonneg v.e2,
      mul_self_nonneg v.e3]
  have h1 : v.e1 = 0 := by
    nlinarith [mul_self_nonneg v.e0, mul_self_nonneg v.e1, mul_self_nonneg v.e2,
      mul_self_nonneg v.e3]
  have h2 : v.e2 = 0 := by
    nlinarith [mul_self_nonneg v.e0, mul_self_nonneg v.e1, mul_self_nonneg v.e2,
      mul_self_nonneg v.e3]
  have h3 : v.e3 = 0 := by
    nlinarith [mul_self_nonneg v.e0, mul_self_nonneg v.e1, mul_self_nonneg v.e2,
      mul_self_nonneg v.e3]
  ext <;> simp [Vec4.zero, h0, h1, h2, h3]

theorem Vec4.norm_pos_of_ne_zero (v : Vec4) (h : v ≠ Vec4.zero) : 0 < v.norm := by
  rw [Vec4.norm]
  refine Real.sqrt_pos.mpr (lt_of_le_of_ne (Vec4.dot_self_nonneg v) ?_)
  intro h0
  exact h (Vec4.eq_zero_of_dot_self_eq_zero v h0.symm)

theorem Vec4.norm_sq_eq_dot_self (v : Vec4) : v.norm ^ 2 = Vec4.dot v v :=
  Real.sq_sqrt (Vec4.dot_self_nonneg v)

theorem Vec4.norm_smul (c : ℝ) (v : Vec4) :
    (Vec4.smul c v).norm = |c| * v.norm := by
  rw [Vec4.norm, Vec4.norm,
    show Vec4.dot (Vec4.smul c v) (Vec4.smul c v) = c ^ 2 * Vec4.dot v v by
      simp [Vec4.dot, Vec4.smul]; ring,
    Real.sqrt_mul (sq_nonneg c), Real.sqrt_sq_eq_abs]

theorem Vec4.divR_eq_smul (v : Vec4) (c : ℝ) :
    v.divR c = Vec4.smul (1 / c) v := by
  ext <;> simp [Vec4.divR, Vec4.smul] <;> ring

theorem Vec4.norm_divR_norm (v : Vec4) (h : v ≠ Vec4.zero) :
    (v.divR v.norm).norm = 1 := by
  have hpos := Vec4.norm_pos_of_ne_zero v h
  rw [Vec4.divR_eq_smul, Vec4.norm_smul, abs_of_pos (by positivity), one_div,
    inv_mul_cancel₀ (ne_of_gt hpos)]

theorem Vec4.dot_self_eq_one_of_norm_one (v : Vec4) (h : v.norm = 1) :
    Vec4.dot v v = 1 := by
  rw [← Vec4.norm_sq_eq_dot_self, h, one_pow]

theorem Vec4.dot_sub_proj (e q : Vec4) (h : Vec4.dot q q = 1) :
    Vec4.dot (e.sub (Vec4.smul (Vec4.dot e q) q)) q = 0 := by
  have hd : Vec4.dot (e.sub (Vec4.smul (Vec4.dot e q) q)) q =
      Vec4.dot e q - Vec4.dot e q * Vec4.dot q q := by
    simp [Vec4.dot, Vec4.sub, Vec4.smul]; ring
  rw [hd, h, mul_one, sub_self]

theorem fromQuat_setQuat (qIndex : ℕ) (q : ℕ → ℝ) (v : Vec4) :
    fromQuat qIndex (setQuat qIndex q v) = v := by
  have h1 : qIndex + 1 ≠ qIndex := by omega
  have h2 : qIndex + 2 ≠ qIndex := by omega
  have h2b : qIndex + 2 ≠ qIndex + 1 := by omega
  have h3 : qIndex + 3 ≠ qIndex := by omega
  have h3b : qIndex + 3 ≠ qIndex + 1 := by omega
  have h3c : qIndex + 3 ≠ qIndex + 2 := by omega
  ext <;> simp [fromQuat, setQuat, h1, h2, h2b, h3, h3b, h3c]

/-- C3: for the quaternion-capable Ball and Free joints with quaternions in
use and a nonzero quaternion slice, `enforceQuaternionConstraints` replaces
the quaternion by itself divided by its norm — a unit quaternion positively
collinear with the input — and returns true; the supplied error estimate has
its component along the normalized quaternion removed, so that
`dot(qerr_out, quat_out) = 0` (the normalized quaternion has exactly unit norm
here); with Euler angles in use it returns false and leaves the coordinates and
the error estimate unchanged. -/
theorem enforceQuaternionConstraints_spec :
    (∀ (qIndex : ℕ) (sbs : SBStateDigest) (q : ℕ → ℝ) (e : Option (ℕ → ℝ)),
      sbs.useEulerAngles = true →
        RBNodeBall.enforceQuaternionConstraints qIndex sbs q e = (q, e, false) ∧
        RBNodeFree.enforceQuaternionConstraints qIndex sbs q e = (q, e, false)) ∧
    (∀ (qIndex : ℕ) (sbs : SBStateDigest) (q : ℕ → ℝ) (e : Option (ℕ → ℝ)),
      sbs.useEulerAngles = false →
        (RBNodeBall.enforceQuaternionConstraints qIndex sbs q e).2.2 = true ∧
        (RBNodeFree.enforceQuaternionConstraints qIndex sbs q e).2.2 = true ∧
        fromQuat qIndex (RBNodeBall.enforceQuaternionConstraints qIndex sbs q e).1 =
          (fromQuat qIndex q).divR (fromQuat qIndex q).norm ∧
        fromQuat qIndex (RBNodeFree.enforceQuaternionConstraints qIndex sbs q e).1 =
          (fromQuat qIndex q).divR (fromQuat qIndex q).norm) ∧
    (∀ (qIndex : ℕ) (sbs : SBStateDigest) (q : ℕ → ℝ) (e : Option (ℕ → ℝ)),
      sbs.useEulerAngles = false → fromQuat qIndex q ≠ Vec4.zero →
        (fromQuat qIndex
            (RBNodeBall.enforceQuaternionConstraints qIndex sbs q e).1).norm = 1 ∧
        (fromQuat qIndex
            (RBNodeFree.enforceQuaternionConstraints qIndex sbs q e).1).norm = 1 ∧
        (∃ c : ℝ, 0 < c ∧
          fromQuat qIndex (RBNodeBall.enforceQuaternionConstraints qIndex sbs q e).1 =
            Vec4.smul c (fromQuat qIndex q))) ∧
    (∀ (qIndex : ℕ) (sbs : SBStateDigest) (q est : ℕ → ℝ),
      sbs.useEulerAngles = false → fromQuat qIndex q ≠ Vec4.zero →
        ∃ est2 : ℕ → ℝ,
          (RBNodeBall.enforceQuaternionConstraints qIndex sbs q (some est)).2.1 =
            some est2 ∧
          (RBNodeFree.enforceQuaternionConstraints qIndex sbs q (some est)).2.1 =
            some est2 ∧
          Vec4.dot (fromQuat qIndex est2)
            (fromQuat qIndex
              (RBNodeBall.enforceQuaternionConstraints qIndex sbs q (some est)).1) = 0) := by
  refine ⟨fun qIndex sbs q e h => ?_, fun qIndex sbs q e h => ?_,
    fun qIndex sbs q e h hq => ?_, fun qIndex sbs q est h hq => ?_⟩
  · constructor <;>
      simp [RBNodeBall.enforceQuaternionConstraints,
        RBNodeFree.enforceQuaternionConstraints, h]
  · refine ⟨?_, ?_, ?_, ?_⟩ <;>
      simp [RBNodeBall.enforceQuaternionConstraints,
        RBNodeFree.enforceQuaternionConstraints, h, fromQuat_setQuat]
  · have hball :
        fromQuat qIndex (RBNodeBall.enforceQuaternionConstraints qIndex sbs q e).1 =
          (fromQuat qIndex q).divR (fromQuat qIndex q).norm := by
      simp [RBNodeBall.enforceQuaternionConstraints, h, fromQuat_setQuat]
    have hfree :
        fromQuat qIndex (RBNodeFree.enforceQuaternionConstraints qIndex sbs q e).1 =
          (fromQuat qIndex q).divR (fromQuat qIndex q).norm := by
      simp [RBNodeFree.enforceQuaternionConstraints, h, fromQuat_setQuat]
    refine ⟨by rw [hball]; exact Vec4.norm_divR_norm _ hq,
      by rw [hfree]; exact Vec4.norm_divR_norm _ hq,
      ⟨1 / (fromQuat qIndex q).norm,
        by have := Vec4.norm_pos_of_ne_zero _ hq; positivity,
        by rw [hball, Vec4.divR_eq_smul]⟩⟩
  · refine ⟨setQuat qIndex est
      ((fromQuat qIndex est).sub
        (Vec4.smul
          (Vec4.dot (fromQuat qIndex est)
            ((fromQuat qIndex q).divR (fromQuat qIndex q).norm))
          ((fromQuat qIndex q).divR (fromQuat qIndex q).norm))), ?_, ?_, ?_⟩
    · simp [RBNodeBall.enforceQuaternionConstraints, h]
    · simp [RBNodeFree.enforceQuaternionConstraints, h]
    · have hball :
          fromQuat qIndex
              (RBNodeBall.enforceQuaternionConstraints qIndex sbs q (some est)).1 =
            (fromQuat qIndex q).divR (fromQuat qIndex q).norm := by
        simp [RBNodeBall.enforceQuaternionConstraints, h, fromQuat_setQuat]
      rw [hball, fromQuat_setQuat]
      exact Vec4.dot_sub_proj _ _
        (Vec4.dot_self_eq_one_of_norm_one _ (Vec4.norm_divR_norm _ hq))

/-- C3 witness: the Ball joint with quaternions in use and the all-ones
(nonzero, non-unit) quaternion slice produces a quaternion of exactly unit
norm, and a supplied error estimate ends up orthogonal to it. -/
theorem enforceQuaternionConstraints_spec_witness :
    (fromQuat 0 (RBNodeBall.enforceQuaternionConstraints 0
        ⟨false, fun _ => 0, fun _ => 0⟩ (fun _ => 1) none).1).norm = 1 ∧
    (∃ est2 : ℕ → ℝ,
      (RBNodeBall.enforceQuaternionConstraints 0
          ⟨false, fun _ => 0, fun _ => 0⟩ (fun _ => 1) (some fun _ => 3)).2.1 =
        some est2 ∧
      (RBNodeFree.enforceQuaternionConstraints 0
          ⟨false, fun _ => 0, fun _ => 0⟩ (fun _ => 1) (some fun _ => 3)).2.1 =
        some est2 ∧
      Vec4.dot (fromQuat 0 est2)
        (fromQuat 0 (RBNodeBall.enforceQuaternionConstraints 0
          ⟨false, fun _ => 0, fun _ => 0⟩ (fun _ => 1) (some fun _ => 3)).1) = 0) := by
  have hne : fromQuat 0 (fun _ : ℕ => (1 : ℝ)) ≠ Vec4.zero := by
    intro h
    have h0 := congrArg Vec4.e0 h
    norm_num [fromQuat, Vec4.zero] at h0
  exact ⟨(enforceQuaternionConstraints_spec.2.2.1 0
      ⟨false, fun _ => 0, fun _ => 0⟩ (fun _ => 1) none rfl hne).1,
    enforceQuaternionConstraints_spec.2.2.2 0
      ⟨false, fun _ => 0, fun _ => 0⟩ (fun _ => 1) (fun _ => 3) rfl hne⟩

/-- Helper for the C9 invariant: every reachable default-immunity array has a
true flag in slot 0 (Ground). -/
theorem Gravity.defaultImmune_head (l : List Bool)
    (h : Gravity.DefaultImmuneReachable l) : l.getD 0 false = true := by
  induction h with
  | ctor nb h =>
      obtain ⟨k, rfl⟩ : ∃ k, nb = k + 1 := ⟨nb - 1, by omega⟩
      simp [Gravity.defaultImmuneOfConstructor, List.replicate_succ]
  | setDefault l mbx b hl ih =>
      obtain ⟨t, rfl⟩ : ∃ t, l = true :: t := by
        cases l with
        | nil => simp at ih
        | cons a t =>
            cases a with
            | true => exact ⟨t, rfl⟩
            | false => simp at ih
      cases mbx with
      | zero => simp [Gravity.setMobodIsImmuneByDefault]
      | succ j =>
          simp only [Gravity.setMobodIsImmuneByDefault, Nat.succ_ne_zero, if_false]
          split <;> simp
  | topo l nb h hl ih =>
      obtain ⟨t, rfl⟩ : ∃ t, l = true :: t := by
        cases l with
        | nil => simp at ih
        | cons a t =>
            cases a with
            | true => exact ⟨t, rfl⟩
            | false => simp at ih
      obtain ⟨k, rfl⟩ : ∃ k, nb = k + 1 := ⟨nb - 1, by omega⟩
      rw [Gravity.resizeImmune]
      split <;> simp [List.take_succ_cons]

/-- C9: Ground (mobilized body 0) is immune to gravity in every reachable state
of the gravity force element: its immunity flag is true from construction
onward, `setMobodIsImmune` and `setMobodIsImmuneByDefault` targeting body 0
change nothing, and the realized force-cache entry for body 0 is the zero
spatial vector. -/
theorem gravity_ground_immune :
    (∀ iv : Gravity.InstanceVars, Gravity.Reachable iv →
        Gravity.immuneAt iv 0 = true) ∧
    (∀ (iv : Gravity.InstanceVars) (b : Bool),
        Gravity.setMobodIsImmune iv 0 b = iv) ∧
    (∀ (l : List Bool) (b : Bool),
        Gravity.setMobodIsImmuneByDefault l 0 b = l) ∧
    (∀ (iv : Gravity.InstanceVars) (nb : ℕ) (m : ℕ → ℝ) (p : ℕ → Vec3),
        Gravity.ensuredBodyForce iv nb m p 0 = SpatialVec.zero) := by
  refine ⟨fun iv hreach => ?_, fun iv b => ?_, fun l b => ?_, fun iv nb m p => ?_⟩
  · induction hreach with
    | init d g z l hl => exact Gravity.defaultImmune_head l hl
    | stepImmune iv mbx b hiv ih =>
        cases mbx with
        | zero => simpa [Gravity.setMobodIsImmune] using ih
        | succ j =>
            obtain ⟨t, hl⟩ : ∃ t, iv.mobodIsImmune = true :: t := by
              rcases h : iv.mobodIsImmune with _ | ⟨a, t⟩
              · simp [Gravity.immuneAt, h] at ih
              · cases a with
                | true => exact ⟨t, rfl⟩
                | false => simp [Gravity.immuneAt, h] at ih
            simp [Gravity.setMobodIsImmune, Gravity.immuneAt, hl]
    | stepMagnitude iv iv2 g hiv hok ih =>
        rw [Gravity.setMagnitude] at hok
        by_cases hg : 0 ≤ g
        · rw [if_pos hg] at hok
          cases hok
          simpa [Gravity.immuneAt] using ih
        · rw [if_neg hg] at hok
          cases hok
    | stepGravityVector iv iv2 v hiv hok ih =>
        rw [Gravity.setGravityVector] at hok
        by_cases hg : 0 < v.norm
        · rw [if_pos hg] at hok
          cases hok
          simpa [Gravity.immuneAt] using ih
        · rw [if_neg hg] at hok
          cases hok
    | stepDownDirection iv down hiv ih =>
        simpa [Gravity.setDownDirection, Gravity.immuneAt] using ih
    | stepZeroHeight iv h hiv ih =>
        simpa [Gravity.setZeroHeight, Gravity.immuneAt] using ih
  · simp [Gravity.setMobodIsImmune]
  · simp [Gravity.setMobodIsImmuneByDefault]
  · rw [Gravity.ensuredBodyForce]
    split_ifs <;> simp_all

/-- C9 witness: a two-body system built by the constructor is reachable, and
Ground's flag is true there. -/
theorem gravity_ground_immune_witness :
    Gravity.immuneAt ⟨⟨0, 0, 1⟩, 9, 0, Gravity.defaultImmuneOfConstructor 2⟩ 0 = true :=
  gravity_ground_immune.1 _
    (Gravity.Reachable.init _ _ _ _
      (Gravity.DefaultImmuneReachable.ctor 2 (by norm_num)))

end
